import Mathlib

/-!
Shallow embedding of the Boost Unions library's `tagged_union` core
(`tagged_union.hpp`) together with the compile-time lookup collaborators
(`type_at_v.hpp`, `contains_v.hpp`) and the `super_union` accessors
(`super_union.hpp`).

Modelling conventions:

* C++ `std::type_info` identities are modelled as natural numbers (`TypeId`);
  `typeid` equality between two types is equality of their identifiers.
  The declared variant list `Types...` of a `tagged_union` instantiation is a
  `List TypeId`.
* Values of the variant types are modelled as natural numbers (`Val`); raw
  pointer values as natural numbers (`Ptr`).
* The shared storage buffer `what_` holds, at the level of abstraction of the
  claims, either its zero-initialized state, a live value of a declared type,
  a stored self-pointer, or the indeterminate bytes left behind by a variant
  type's special member function that threw partway (`Content.junk`).
* The observable behaviour of the variant types' special member functions
  (copy/move constructor, copy/move assignment operator, destructor) is a
  parameter of every theorem, packaged in `TypeOps`.  A successful copy
  produces an equal value (the meaning of "copy" for a regular type); each
  operation may instead throw, in which case the parameter also records the
  state it leaves behind, since C++ leaves those bytes indeterminate.
* Every container operation returns the list of variant-type special member
  functions it invoked (`Event`s), in invocation order, so that "invokes the
  type's own assignment operator" versus "destroys and reconstructs" is
  observable, as the specification demands.
* A C++ exception propagating out of an operation is modelled by a `Bool`
  "thrown" component (for assignment, whose target keeps a state either way)
  or by `Except Unit` (for constructors, whose target never comes to life on
  a throw).
-/

namespace Unionize

abbrev TypeId := Nat
abbrev Val := Nat
abbrev Ptr := Nat

/-- Abstract content of the `what_` storage buffer of a `tagged_union`:
zero-initialized bytes (`what_{}`), a live object of a declared variant type,
a stored pointer-to-self, or the indeterminate bytes left by a variant
operation that threw partway through. -/
inductive Content where
  | zero : Content
  | val (v : Val) : Content
  | ptr (p : Ptr) : Content
  | junk (k : Nat) : Content
deriving DecidableEq, Repr

/-- Reading the buffer through a typed pointer (`static_cast<T *>(data)`):
the deterministic abstraction of reinterpreting the buffer bytes as a value. -/
def asVal : Content → Val
  | Content.zero => 0
  | Content.val v => v
  | Content.ptr p => p
  | Content.junk k => k

/-- Observable behaviour of the variant types' special member functions.
Each `...Fail` field returns `none` when the operation succeeds and
`some leftover` when it throws, recording what the throwing operation leaves
behind (C++ leaves those bytes/values indeterminate, so the model quantifies
over them). -/
structure TypeOps where
  /-- Copy constructor of type `t` from a source value: `none` = succeeds
  (placement-constructing an equal copy), `some c` = throws, leaving bytes `c`
  at the destination. -/
  copyCtorFail : TypeId → Val → Option Content
  /-- Move constructor of type `t` from a source value: `none` = succeeds,
  `some r` = throws, leaving the moved-from source holding `r`. -/
  moveCtorFail : TypeId → Val → Option Val
  /-- Source value left behind by a successful move construction. -/
  movedFromCtor : TypeId → Val → Val
  /-- Copy-assignment operator of type `t`, `(source, dest)` values: `none` =
  succeeds (dest becomes an equal copy of source), `some w` = throws with the
  destination object left holding `w`. -/
  copyAsgFail : TypeId → Val → Val → Option Val
  /-- Move-assignment operator of type `t`: `none` = succeeds, `some (w, r)` =
  throws with destination left holding `w` and source left holding `r`. -/
  moveAsgFail : TypeId → Val → Val → Option (Val × Val)
  /-- Source value left behind by a successful move assignment. -/
  movedFromAsg : TypeId → Val → Val
  /-- Whether the destructor of type `t` on this value throws. -/
  dtorFail : TypeId → Val → Bool
  /-- Bytes left at the destroyed object's location by the destructor. -/
  dtorLeft : TypeId → Val → Content

/-- Variant-type special member functions invoked by a container operation,
in invocation order.  `t` is the `typeid` the visitor dispatched on. -/
inductive Event where
  | copyCtorEv (t : TypeId) : Event
  | moveCtorEv (t : TypeId) : Event
  | dtorEv (t : TypeId) : Event
  | copyAsgEv (t : TypeId) : Event
  | moveAsgEv (t : TypeId) : Event
deriving DecidableEq, Repr

/-- State of a `tagged_union<Types...>` object: the storage buffer `what_`,
the tag `which_` (`none` = the null `std::type_info` pointer), and the
pointer-to-self flag `self_`. -/
structure tagged_union where
  what : Content
  which : Option TypeId
  self : Bool
deriving DecidableEq, Repr

/-- The linear scan of `detail::visit_via_ref` / `visit_via_rref` /
`visit_via_ptr` over the declared variant list: whether the scan finds a
declared type whose `typeid` equals the dispatched-on tag (first match wins;
no match means the visit is a silent no-op). -/
def visit_finds : List TypeId → TypeId → Bool
  | [], _ => false
  | h :: tl, t => if t = h then true else visit_finds tl t

/-- `boost::mpl::contains_v<T, Types...>`: the compile-time check used by the
`enable_if` on the value constructors. -/
def contains_v : TypeId → List TypeId → Bool
  | _, [] => false
  | t, h :: tl => if t = h then true else contains_v t tl

/-- `tagged_union::tagged_union()`: default construction, no data. -/
def tu_default : tagged_union := ⟨Content.zero, none, false⟩

/-- `tagged_union::tagged_union(T const &)`: construction by copy-constructing
from a value of a declared variant type `t` (the `enable_if` requires
`contains_v t Types`).  On success the buffer holds a copy of the value and
the tag is `t` with the self-flag off; if the copy constructor throws, the
container object never comes to life. -/
def tu_from_value (ops : TypeOps) (t : TypeId) (v : Val) :
    List Event × Except Unit tagged_union :=
  match ops.copyCtorFail t v with
  | none => ([Event.copyCtorEv t], Except.ok ⟨Content.val v, some t, false⟩)
  | some _ => ([Event.copyCtorEv t], Except.error ())

/-- `tagged_union::tagged_union(T &&)`: construction by move-constructing from
a value of a declared variant type. -/
def tu_from_value_mv (ops : TypeOps) (t : TypeId) (v : Val) :
    List Event × Except Unit tagged_union :=
  match ops.moveCtorFail t v with
  | none => ([Event.moveCtorEv t], Except.ok ⟨Content.val v, some t, false⟩)
  | some _ => ([Event.moveCtorEv t], Except.error ())

/-- `tagged_union::tagged_union(T cv *)`: construction from a (multi-level)
pointer-to-self (the `enable_if` requires `undecorate<T>::type` to be the
container type itself).  `pt` is `typeid(T cv *)`, the identity of the exact
pointer type; `p` is the stored pointer value.  Never throws. -/
def tu_from_self_ptr (pt : TypeId) (p : Ptr) : tagged_union :=
  ⟨Content.ptr p, some pt, true⟩

/-- Body of `tagged_union`'s copy constructor, acting on the source's fields
(`which_`/`self_` are copied in the init list; the buffer is zero-initialized
and then filled): bitwise copy for a self-pointer, visitor dispatch to the
matching type's copy constructor for a declared value, nothing for an empty
source.  Returns the invoked events and `some` final buffer content, or `none`
when the dispatched copy constructor threw (so the object never exists). -/
def copy_ctor_core (ops : TypeOps) (types : List TypeId)
    (w : Option TypeId) (sf : Bool) (b : Content) :
    List Event × Option Content :=
  if sf then ([], some b)
  else
    match w with
    | some t =>
      if visit_finds types t then
        match ops.copyCtorFail t (asVal b) with
        | none => ([Event.copyCtorEv t], some (Content.val (asVal b)))
        | some _ => ([Event.copyCtorEv t], none)
      else ([], some Content.zero)
    | none => ([], some Content.zero)

/-- `tagged_union::tagged_union(tagged_union const &)`: copy constructor. -/
def tu_copy_ctor (ops : TypeOps) (types : List TypeId) (that : tagged_union) :
    List Event × Except Unit tagged_union :=
  match copy_ctor_core ops types that.which that.self that.what with
  | (ev, some b) => (ev, Except.ok ⟨b, that.which, that.self⟩)
  | (ev, none) => (ev, Except.error ())

/-- Body of `tagged_union`'s move constructor: bitwise move for a
self-pointer, visitor dispatch to the matching type's move constructor for a
declared value.  Returns the events, `some` new buffer content (or `none` on
a throw), and the source's buffer content afterwards (mutated only by the
variant type's move constructor). -/
def move_ctor_core (ops : TypeOps) (types : List TypeId)
    (w : Option TypeId) (sf : Bool) (b : Content) :
    List Event × Option Content × Content :=
  if sf then ([], some b, b)
  else
    match w with
    | some t =>
      if visit_finds types t then
        match ops.moveCtorFail t (asVal b) with
        | none =>
          ([Event.moveCtorEv t], some (Content.val (asVal b)),
           Content.val (ops.movedFromCtor t (asVal b)))
        | some r => ([Event.moveCtorEv t], none, Content.val r)
      else ([], some Content.zero, b)
    | none => ([], some Content.zero, b)

/-- `tagged_union::tagged_union(tagged_union &&)`: move constructor.  Returns
the events, the constructed object (or an error when the dispatched move
constructor threw), and the state of the source afterwards — the source's tag
and self-flag are never written. -/
def tu_move_ctor (ops : TypeOps) (types : List TypeId) (that : tagged_union) :
    List Event × Except Unit tagged_union × tagged_union :=
  match move_ctor_core ops types that.which that.self that.what with
  | (ev, some b, srcb) =>
    (ev, Except.ok ⟨b, that.which, that.self⟩, ⟨srcb, that.which, that.self⟩)
  | (ev, none, srcb) => (ev, Except.error (), ⟨srcb, that.which, that.self⟩)

/-- `tagged_union::operator =(tagged_union const &)`: copy assignment.
Returns the invoked events, whether an exception propagated to the caller,
and the target's state afterwards (meaningful even when an exception
propagated, since the target object stays alive).

Translation notes, case by case as in the source:
* both sides hold a declared value of the same type — dispatch to the type's
  copy-assignment operator in place;
* both hold declared values of different types — copy-construct the new value
  into the buffer (no try/catch: a throw propagates, leaving the tag and
  self-flag untouched and the buffer holding whatever the failed constructor
  left), then swap the saved old bytes back in, destroy the old value
  (swallowing anything its destructor throws), swap again, and commit the
  source's tag and self-flag;
* target holds a declared value, source holds nothing or a self-pointer —
  run the destructor body (a throw there propagates), then bitwise-copy the
  source's buffer and commit its tag and self-flag;
* target holds nothing or a self-pointer — placement-construct a whole copy
  of the source over `*this` (reusing the copy constructor); on a throw,
  restore the snapshot (buffer bytes, tag, self-flag) and rethrow. -/
def copy_assign (ops : TypeOps) (types : List TypeId)
    (s that : tagged_union) : List Event × Bool × tagged_union :=
  match s.which, s.self, that.which, that.self with
  | some tOld, false, some tNew, false =>
    if tOld = tNew then
      if visit_finds types tNew then
        match ops.copyAsgFail tNew (asVal that.what) (asVal s.what) with
        | none =>
          ([Event.copyAsgEv tNew], false,
           ⟨Content.val (asVal that.what), s.which, s.self⟩)
        | some w => ([Event.copyAsgEv tNew], true, ⟨Content.val w, s.which, s.self⟩)
      else ([], false, s)
    else
      if visit_finds types tNew then
        match ops.copyCtorFail tNew (asVal that.what) with
        | some leftover =>
          ([Event.copyCtorEv tNew], true, ⟨leftover, s.which, s.self⟩)
        | none =>
          (Event.copyCtorEv tNew ::
             (if visit_finds types tOld then [Event.dtorEv tOld] else []),
           false,
           ⟨Content.val (asVal that.what), that.which, that.self⟩)
      else
        ((if visit_finds types tOld then [Event.dtorEv tOld] else []),
         false, ⟨s.what, that.which, that.self⟩)
  | some tOld, false, _, _ =>
    if visit_finds types tOld then
      if ops.dtorFail tOld (asVal s.what) then
        ([Event.dtorEv tOld], true,
         ⟨ops.dtorLeft tOld (asVal s.what), s.which, s.self⟩)
      else
        ([Event.dtorEv tOld], false, ⟨that.what, that.which, that.self⟩)
    else ([], false, ⟨that.what, that.which, that.self⟩)
  | _, _, _, _ =>
    ((copy_ctor_core ops types that.which that.self that.what).1,
     match (copy_ctor_core ops types that.which that.self that.what).2 with
     | some b => (false, (⟨b, that.which, that.self⟩ : tagged_union))
     | none => (true, (⟨s.what, s.which, s.self⟩ : tagged_union)))

/-- `tagged_union::operator =(tagged_union &&)`: move assignment.  Fast path
(`which_` non-null on both sides, equal tags, and `!this->self_`): dispatch to
the type's move-assignment operator.  Every other combination delegates to
copy assignment on a `const`-cast view of the source.  Returns events, the
thrown flag, the target's state, and the source's state afterwards. -/
def move_assign (ops : TypeOps) (types : List TypeId)
    (s that : tagged_union) : List Event × Bool × tagged_union × tagged_union :=
  match s.which, that.which with
  | some a, some b =>
    if a = b ∧ s.self = false then
      if visit_finds types b then
        match ops.moveAsgFail b (asVal that.what) (asVal s.what) with
        | none =>
          ([Event.moveAsgEv b], false,
           ⟨Content.val (asVal that.what), s.which, s.self⟩,
           ⟨Content.val (ops.movedFromAsg b (asVal that.what)),
            that.which, that.self⟩)
        | some wr =>
          ([Event.moveAsgEv b], true,
           ⟨Content.val wr.1, s.which, s.self⟩,
           ⟨Content.val wr.2, that.which, that.self⟩)
      else ([], false, s, that)
    else
      ((copy_assign ops types s that).1, (copy_assign ops types s that).2.1,
       (copy_assign ops types s that).2.2, that)
  | _, _ =>
    ((copy_assign ops types s that).1, (copy_assign ops types s that).2.1,
     (copy_assign ops types s that).2.2, that)

/-- `tagged_union::data()`: the untyped address of the buffer, null when no
value is stored — modelled as the buffer content behind that address. -/
def tagged_union.data (u : tagged_union) : Option Content :=
  match u.which with
  | some _ => some u.what
  | none => none

/-- `tagged_union::stored_type()`: the tag, null when no value is stored. -/
def tagged_union.stored_type (u : tagged_union) : Option TypeId := u.which

/-- `tagged_union::storing_pointer_to_self()`. -/
def tagged_union.storing_ptr_to_self (u : tagged_union) : Bool := u.self

/-- The `for` loop of `tagged_union::invariant` over `variant_types()`: the
first declared type whose `typeid` equals the tag decides `!self_`; if none
does, the result is `self_`. -/
def inv_scan : List TypeId → TypeId → Bool → Bool
  | [], _, sf => sf
  | h :: tl, w, sf => if h = w then !sf else inv_scan tl w sf

/-- `tagged_union::invariant()`: the protected self-consistency check. -/
def invariant (types : List TypeId) (u : tagged_union) : Bool :=
  if u.self && u.which.isNone then false
  else
    match u.which with
    | none => true
    | some w => inv_scan types w u.self

/-- `boost::bad_get`, thrown by the reference-returning accessors. -/
inductive bad_get where
  | mk : bad_get
deriving DecidableEq, Repr

/-- `gett<T>(tagged_union<Types...> *tu)`: the pointer-returning by-type
accessor, `t` being `typeid(T)`.  Returns the typed address of the stored
value (modelled by the buffer content behind it) exactly when the container
pointer is non-null, a value is stored, and the stored `typeid` equals `t`;
otherwise null.  Never throws (total, `Option`-valued). -/
def gett_ptr (t : TypeId) (tu : Option tagged_union) : Option Content :=
  match tu with
  | none => none
  | some u =>
    match u.stored_type with
    | some w => if w = t then u.data else none
    | none => none

/-- `gett<T>(tagged_union<Types...> &tu)`: the reference-returning by-type
accessor: dereference the pointer form on `&tu`, or throw `boost::bad_get`. -/
def gett_ref (t : TypeId) (u : tagged_union) : Except bad_get Content :=
  match gett_ptr t (some u) with
  | some c => Except.ok c
  | none => Except.error bad_get.mk

/-- `boost::mpl::type_at_v<Index, Types...>`: the compile-time index-to-type
lookup used by `variant_element` for `tagged_union`.  `none` models "the
specialization remains undefined", i.e. a compile-time error. -/
def type_at_v : Nat → List TypeId → Option TypeId
  | _, [] => none
  | 0, h :: _ => some h
  | Nat.succ i, _ :: tl => type_at_v i tl

/-- `variant_element<Index, super_union<Types...>>`: the recursive
index-to-type lookup defined alongside `super_union`.  `none` models the
missing specialization at `super_union<>`, i.e. a compile-time error. -/
def su_variant_element : Nat → List TypeId → Option TypeId
  | 0, h :: _ => some h
  | Nat.succ i, _ :: tl => su_variant_element i tl
  | _, [] => none

/-- Whether `gett<T>(super_union<Head, Tail...> &)` is well-formed: the
`detail::gett_impl` overload chain resolves only while a next list element
exists, so the call compiles exactly when some declared type is `T`; `false`
models the compile-time error of the exhausted overload set. -/
def su_gett_defined (t : TypeId) : List TypeId → Bool
  | [] => false
  | [h] => t = h
  | h :: m :: tl => if t = h then true else su_gett_defined t (m :: tl)

/-! ### Helper lemmas -/

theorem visit_finds_iff (types : List TypeId) (t : TypeId) :
    visit_finds types t = true ↔ t ∈ types := by
  induction types with
  | nil => simp [visit_finds]
  | cons h tl ih => by_cases ht : t = h <;> simp [visit_finds, ht, ih]

theorem contains_v_iff (t : TypeId) (types : List TypeId) :
    contains_v t types = true ↔ t ∈ types := by
  induction types with
  | nil => simp [contains_v]
  | cons h tl ih => by_cases ht : t = h <;> simp [contains_v, ht, ih]

theorem inv_scan_eq (types : List TypeId) (w : TypeId) (sf : Bool) :
    inv_scan types w sf = if w ∈ types then !sf else sf := by
  induction types with
  | nil => simp [inv_scan]
  | cons h tl ih =>
    by_cases hh : h = w
    · simp [inv_scan, hh]
    · have hh' : ¬w = h := fun e => hh e.symm
      simp [inv_scan, hh, hh', ih]

theorem invariant_iff (types : List TypeId) (u : tagged_union) :
    invariant types u = true ↔
      (match u.which with
       | none => u.self = false
       | some w => (u.self = false ∧ w ∈ types) ∨ (u.self = true ∧ w ∉ types)) := by
  obtain ⟨b, w, sf⟩ := u
  cases w with
  | none => cases sf <;> simp [invariant]
  | some w =>
    by_cases hw : w ∈ types <;> cases sf <;> simp [invariant, inv_scan_eq, hw]

theorem invariant_of_pair (types : List TypeId) (u v : tagged_union)
    (hw : u.which = v.which) (hs : u.self = v.self)
    (h : invariant types v = true) : invariant types u = true := by
  have he : invariant types u = invariant types v := by
    unfold invariant
    rw [hw, hs]
  rw [he]
  exact h

theorem copy_ctor_core_no_move_events (ops : TypeOps) (types : List TypeId)
    (w : Option TypeId) (sf : Bool) (b : Content) (t : TypeId) :
    Event.moveAsgEv t ∉ (copy_ctor_core ops types w sf b).1 := by
  rcases w with _ | tt <;> cases sf <;>
    simp only [copy_ctor_core] <;> (repeat' split) <;> simp_all

theorem copy_assign_pair (ops : TypeOps) (types : List TypeId)
    (s that : tagged_union) :
    ((copy_assign ops types s that).2.2.which = s.which ∧
     (copy_assign ops types s that).2.2.self = s.self) ∨
    ((copy_assign ops types s that).2.2.which = that.which ∧
     (copy_assign ops types s that).2.2.self = that.self) := by
  obtain ⟨sb, sw, ssf⟩ := s
  obtain ⟨tb, tw, tsf⟩ := that
  rcases sw with _ | tOld <;> rcases tw with _ | tNew <;>
    cases ssf <;> cases tsf <;>
    simp only [copy_assign] <;>
    (repeat' split) <;> simp_all

theorem copy_assign_no_move_events (ops : TypeOps) (types : List TypeId)
    (s that : tagged_union) (t : TypeId) :
    Event.moveAsgEv t ∉ (copy_assign ops types s that).1 := by
  obtain ⟨sb, sw, ssf⟩ := s
  obtain ⟨tb, tw, tsf⟩ := that
  have hcore := fun w sf b =>
    copy_ctor_core_no_move_events ops types w sf b t
  rcases sw with _ | tOld <;> rcases tw with _ | tNew <;>
    cases ssf <;> cases tsf <;>
    simp only [copy_assign] <;>
    (repeat' split) <;> simp_all

theorem invariant_decl (types : List TypeId) (b : Content) (t : TypeId)
    (ht : t ∈ types) : invariant types ⟨b, some t, false⟩ = true := by
  rw [invariant_iff]
  exact Or.inl ⟨rfl, ht⟩

theorem invariant_selfp (types : List TypeId) (b : Content) (pt : TypeId)
    (h : pt ∉ types) : invariant types ⟨b, some pt, true⟩ = true := by
  rw [invariant_iff]
  exact Or.inr ⟨rfl, h⟩

theorem invariant_empty (types : List TypeId) (b : Content) :
    invariant types ⟨b, none, false⟩ = true := by
  rw [invariant_iff]

theorem tu_copy_ctor_ok_pair (ops : TypeOps) (types : List TypeId)
    (that : tagged_union) (ev : List Event) (u : tagged_union)
    (h : tu_copy_ctor ops types that = (ev, Except.ok u)) :
    u.which = that.which ∧ u.self = that.self := by
  unfold tu_copy_ctor at h
  rcases hc : copy_ctor_core ops types that.which that.self that.what with ⟨e, ob⟩
  rw [hc] at h
  rcases ob with _ | b <;> simp at h
  obtain ⟨-, h2⟩ := h
  subst h2
  exact ⟨rfl, rfl⟩

theorem tu_move_ctor_pairs (ops : TypeOps) (types : List TypeId)
    (that : tagged_union) (ev : List Event) (r : Except Unit tagged_union)
    (src : tagged_union)
    (h : tu_move_ctor ops types that = (ev, r, src)) :
    src.which = that.which ∧ src.self = that.self ∧
    (∀ u, r = Except.ok u → u.which = that.which ∧ u.self = that.self) := by
  unfold tu_move_ctor at h
  rcases hc : move_ctor_core ops types that.which that.self that.what with ⟨e, ob, sb⟩
  rw [hc] at h
  rcases ob with _ | b <;> simp at h <;>
    obtain ⟨-, h2, h3⟩ := h <;> subst h2 <;> subst h3
  · refine ⟨rfl, rfl, ?_⟩
    intro u hu
    cases hu
  · refine ⟨rfl, rfl, ?_⟩
    intro u hu
    cases hu
    exact ⟨rfl, rfl⟩

theorem move_assign_pairs (ops : TypeOps) (types : List TypeId)
    (s that : tagged_union) :
    (((move_assign ops types s that).2.2.1.which = s.which ∧
      (move_assign ops types s that).2.2.1.self = s.self) ∨
     ((move_assign ops types s that).2.2.1.which = that.which ∧
      (move_assign ops types s that).2.2.1.self = that.self)) ∧
    ((move_assign ops types s that).2.2.2.which = that.which ∧
     (move_assign ops types s that).2.2.2.self = that.self) := by
  have hp := copy_assign_pair ops types s that
  obtain ⟨sb, sw, ssf⟩ := s
  obtain ⟨tb, tw, tsf⟩ := that
  rcases sw with _ | a <;> rcases tw with _ | b <;>
    simp only [move_assign] <;> (repeat' split) <;> simp_all

theorem invariant_declared_mem (types : List TypeId) (u : tagged_union)
    (t : TypeId) (hu : invariant types u = true)
    (hw : u.which = some t) (hsf : u.self = false) : t ∈ types := by
  rw [invariant_iff, hw, hsf] at hu
  rcases hu with ⟨-, h⟩ | ⟨h, -⟩
  · exact h
  · simp at h

theorem invariant_selfflag_not_mem (types : List TypeId) (u : tagged_union)
    (t : TypeId) (hu : invariant types u = true)
    (hw : u.which = some t) (hsf : u.self = true) : t ∉ types := by
  rw [invariant_iff, hw, hsf] at hu
  rcases hu with ⟨h, -⟩ | ⟨-, h⟩
  · simp at h
  · exact h

/-! ### Claims -/

/-- Concrete variant-type behaviour used by counterexamples and witnesses:
type `1`'s copy constructor always throws, leaving indeterminate bytes
(`junk 9`) at its destination; everything else succeeds. -/
def opsFailNew : TypeOps where
  copyCtorFail := fun t _ => if t = 1 then some (Content.junk 9) else none
  moveCtorFail := fun _ _ => none
  movedFromCtor := fun _ v => v
  copyAsgFail := fun _ _ _ => none
  moveAsgFail := fun _ _ _ => none
  movedFromAsg := fun _ v => v
  dtorFail := fun _ _ => false
  dtorLeft := fun _ _ => Content.zero

/-- Concrete variant-type behaviour in which type `0`'s destructor throws
(leaving `junk 4` behind) and everything else succeeds. -/
def opsDtorThrows : TypeOps where
  copyCtorFail := fun _ _ => none
  moveCtorFail := fun _ _ => none
  movedFromCtor := fun _ v => v
  copyAsgFail := fun _ _ _ => none
  moveAsgFail := fun _ _ _ => none
  movedFromAsg := fun _ v => v
  dtorFail := fun t _ => t = 0
  dtorLeft := fun _ _ => Content.junk 4

/-- C1 counterexample: over declared types `[0, 1]`, a container holding the
value `5` of type `0` is copy-assigned from a container holding a value of
type `1` whose copy constructor throws.  The exception propagates (thrown
component `true`), yet the container is NOT left holding what it held before:
its tag and self-flag are unchanged but its buffer holds the bytes the failed
construction left, not the original value — in this cross-type path the
pre-assignment snapshot is never restored, so the claimed strong exception
guarantee fails. -/
theorem C1_counterexample :
    (copy_assign opsFailNew [0, 1]
        ⟨Content.val 5, some 0, false⟩ ⟨Content.val 7, some 1, false⟩).2.1 = true
  ∧ (copy_assign opsFailNew [0, 1]
        ⟨Content.val 5, some 0, false⟩ ⟨Content.val 7, some 1, false⟩).2.2 ≠
      ⟨Content.val 5, some 0, false⟩ := by decide

/-- C1 (amended): of the two placement-construct paths of copy assignment,
only the one where the destination is empty or holds a self-pointer has the
strong exception guarantee: there, a construction throw restores the
snapshot, so the destination is exactly its old self.  In the
different-declared-types path, a construction throw propagates with the tag
and self-flag unchanged but the buffer left holding whatever the failed
constructor left behind; the snapshot is not restored. -/
theorem C1_amended_exception_paths (ops : TypeOps) (types : List TypeId)
    (s that : tagged_union) :
    ((s.which = none ∨ s.self = true) →
       (copy_assign ops types s that).2.1 = true →
       (copy_assign ops types s that).2.2 = s)
  ∧ (∀ t1 t2 j, s.which = some t1 → s.self = false →
       that.which = some t2 → that.self = false → t1 ≠ t2 →
       visit_finds types t2 = true →
       ops.copyCtorFail t2 (asVal that.what) = some j →
       copy_assign ops types s that =
         ([Event.copyCtorEv t2], true, ⟨j, s.which, s.self⟩)) := by
  obtain ⟨sb, sw, ssf⟩ := s
  obtain ⟨tb, tw, tsf⟩ := that
  constructor
  · rintro (h | h)
    · simp only at h
      subst h
      cases ssf <;> simp only [copy_assign] <;>
        (repeat' split) <;> simp_all
    · simp only at h
      subst h
      rcases sw with _ | tOld <;> simp only [copy_assign] <;>
        (repeat' split) <;> simp_all
  · rintro t1 t2 j h1 h2 h3 h4 hne hfind hfail
    simp only at h1 h2 h3 h4
    subst h1; subst h2; subst h3; subst h4
    simp [copy_assign, hne, hfind, hfail]

/-- C1 amended witness: a self-pointer-holding destination assigned from a
source whose value's copy constructor throws is restored exactly. -/
theorem C1_amended_witness :
    (copy_assign opsFailNew [0, 1]
        ⟨Content.ptr 3, some 7, true⟩ ⟨Content.val 7, some 1, false⟩).2.2 =
      ⟨Content.ptr 3, some 7, true⟩ :=
  (C1_amended_exception_paths opsFailNew [0, 1]
      ⟨Content.ptr 3, some 7, true⟩ ⟨Content.val 7, some 1, false⟩).1
    (Or.inr rfl) (by decide)

/-- C2: every public operation of `tagged_union` (default construction,
construction from a declared-type value by copy or by move, construction from
a pointer-to-self, copy construction, move construction, copy assignment,
move assignment) produces or preserves states satisfying the consistency
check `invariant`: self-flag on implies a present tag; a present tag with the
self-flag off identifies a declared variant type; a present tag with the
self-flag on identifies a type outside the declared list.  The value
constructors carry the `enable_if` fact `contains_v t types`; the self-pointer
constructors carry the fact that the exact pointer-to-self type cannot appear
in the declared list (naming the container type inside its own parameter list
is impossible). -/
theorem C2_all_ops_preserve_invariant (ops : TypeOps) (types : List TypeId) :
    invariant types tu_default = true
  ∧ (∀ t v ev u, contains_v t types = true →
       tu_from_value ops t v = (ev, Except.ok u) → invariant types u = true)
  ∧ (∀ t v ev u, contains_v t types = true →
       tu_from_value_mv ops t v = (ev, Except.ok u) → invariant types u = true)
  ∧ (∀ pt p, pt ∉ types → invariant types (tu_from_self_ptr pt p) = true)
  ∧ (∀ that ev u, invariant types that = true →
       tu_copy_ctor ops types that = (ev, Except.ok u) → invariant types u = true)
  ∧ (∀ that ev u src, invariant types that = true →
       tu_move_ctor ops types that = (ev, Except.ok u, src) →
       invariant types u = true ∧ invariant types src = true)
  ∧ (∀ s that, invariant types s = true → invariant types that = true →
       invariant types (copy_assign ops types s that).2.2 = true)
  ∧ (∀ s that, invariant types s = true → invariant types that = true →
       invariant types (move_assign ops types s that).2.2.1 = true ∧
       invariant types (move_assign ops types s that).2.2.2 = true) := by
  refine ⟨invariant_empty types Content.zero, ?_, ?_, ?_, ?_, ?_, ?_, ?_⟩
  · intro t v ev u hc hmk
    rcases hf : ops.copyCtorFail t v with _ | c <;>
      simp [tu_from_value, hf] at hmk
    obtain ⟨-, h2⟩ := hmk
    subst h2
    exact invariant_decl types _ t ((contains_v_iff t types).mp hc)
  · intro t v ev u hc hmk
    rcases hf : ops.moveCtorFail t v with _ | c <;>
      simp [tu_from_value_mv, hf] at hmk
    obtain ⟨-, h2⟩ := hmk
    subst h2
    exact invariant_decl types _ t ((contains_v_iff t types).mp hc)
  · intro pt p hpt
    exact invariant_selfp types _ pt hpt
  · intro that ev u hinv h
    obtain ⟨hw, hsf⟩ := tu_copy_ctor_ok_pair ops types that ev u h
    exact invariant_of_pair types u that hw hsf hinv
  · intro that ev u src hinv h
    obtain ⟨hsw, hss, hok⟩ := tu_move_ctor_pairs ops types that ev _ src h
    obtain ⟨huw, hus⟩ := hok u rfl
    exact ⟨invariant_of_pair types u that huw hus hinv,
           invariant_of_pair types src that hsw hss hinv⟩
  · intro s that hs ht
    rcases copy_assign_pair ops types s that with ⟨hw, hsf⟩ | ⟨hw, hsf⟩
    · exact invariant_of_pair types _ s hw hsf hs
    · exact invariant_of_pair types _ that hw hsf ht
  · intro s that hs ht
    obtain ⟨hfin, hsw, hss⟩ := move_assign_pairs ops types s that
    constructor
    · rcases hfin with ⟨hw, hsf⟩ | ⟨hw, hsf⟩
      · exact invariant_of_pair types _ s hw hsf hs
      · exact invariant_of_pair types _ that hw hsf ht
    · exact invariant_of_pair types _ that hsw hss ht

/-- C2 witness: the invariant holds after a concrete self-pointer
construction and after a concrete copy assignment. -/
theorem C2_witness :
    invariant [0, 1] (tu_from_self_ptr 9 3) = true
  ∧ invariant [0, 1] (copy_assign opsFailNew [0, 1]
      ⟨Content.val 5, some 0, false⟩ ⟨Content.val 7, some 0, false⟩).2.2 = true := by
  constructor
  · exact (C2_all_ops_preserve_invariant opsFailNew [0, 1]).2.2.2.1 9 3 (by decide)
  · exact (C2_all_ops_preserve_invariant opsFailNew [0, 1]).2.2.2.2.2.2.1
      ⟨Content.val 5, some 0, false⟩ ⟨Content.val 7, some 0, false⟩
      (by decide) (by decide)

/-- C3: when the target holds a value of declared type `t` (self-flag off)
and the source holds a value of the same type, copy assignment dispatches to
that type's own copy-assignment operator in place: the only variant-type
special member function invoked is the copy-assignment operator (no
destructor, no constructor), the tag and self-flag are unchanged, and on
success the stored value is the assigned copy of the source's value. -/
theorem C3_same_type_copy_assign_in_place (ops : TypeOps) (types : List TypeId)
    (s that : tagged_union) (t : TypeId)
    (h1 : s.which = some t) (h2 : s.self = false)
    (h3 : that.which = some t) (h4 : that.self = false)
    (h5 : t ∈ types) :
    (copy_assign ops types s that).1 = [Event.copyAsgEv t]
  ∧ (copy_assign ops types s that).2.2.which = s.which
  ∧ (copy_assign ops types s that).2.2.self = s.self
  ∧ (ops.copyAsgFail t (asVal that.what) (asVal s.what) = none →
       (copy_assign ops types s that).2.2.what = Content.val (asVal that.what)) := by
  obtain ⟨sb, sw, ssf⟩ := s
  obtain ⟨tb, tw, tsf⟩ := that
  simp only at h1 h2 h3 h4
  subst h1; subst h2; subst h3; subst h4
  have hfind : visit_finds types t = true := (visit_finds_iff types t).mpr h5
  rcases hf : ops.copyAsgFail t (asVal tb) (asVal sb) with _ | w <;>
    simp [copy_assign, hfind, hf]

/-- C3 witness: a concrete same-type assignment over declared types `[0, 1]`
invokes only the copy-assignment operator and leaves tag and self-flag
untouched. -/
theorem C3_witness :
    (copy_assign opsFailNew [0, 1]
        ⟨Content.val 5, some 0, false⟩ ⟨Content.val 7, some 0, false⟩).1 =
      [Event.copyAsgEv 0]
  ∧ (copy_assign opsFailNew [0, 1]
        ⟨Content.val 5, some 0, false⟩ ⟨Content.val 7, some 0, false⟩).2.2.what =
      Content.val 7 := by
  have h := C3_same_type_copy_assign_in_place opsFailNew [0, 1]
    ⟨Content.val 5, some 0, false⟩ ⟨Content.val 7, some 0, false⟩ 0
    rfl rfl rfl rfl (by decide)
  exact ⟨h.1, h.2.2.2 rfl⟩

/-- C4: during cross-type copy assignment (both sides hold values of
different declared types, self-flags off) whose new-value construction
succeeds, an exception thrown by the old value's destructor is swallowed: no
exception propagates (thrown component `false` even under the hypothesis that
the destructor throws), and the assignment completes with the container
holding the new value under the source's tag and self-flag.  The event list
records that the old value's destructor did run after the new value's copy
construction. -/
theorem C4_cross_type_dtor_exception_swallowed (ops : TypeOps)
    (types : List TypeId) (s that : tagged_union) (t1 t2 : TypeId)
    (h1 : s.which = some t1) (h2 : s.self = false)
    (h3 : that.which = some t2) (h4 : that.self = false)
    (hne : t1 ≠ t2) (ht1 : t1 ∈ types) (ht2 : t2 ∈ types)
    (hok : ops.copyCtorFail t2 (asVal that.what) = none)
    (hthrow : ops.dtorFail t1 (asVal s.what) = true) :
    copy_assign ops types s that =
      ([Event.copyCtorEv t2, Event.dtorEv t1], false,
       ⟨Content.val (asVal that.what), that.which, that.self⟩) := by
  obtain ⟨sb, sw, ssf⟩ := s
  obtain ⟨tb, tw, tsf⟩ := that
  simp only at h1 h2 h3 h4
  subst h1; subst h2; subst h3; subst h4
  have hf1 : visit_finds types t1 = true := (visit_finds_iff types t1).mpr ht1
  have hf2 : visit_finds types t2 = true := (visit_finds_iff types t2).mpr ht2
  simp [copy_assign, hne, hf1, hf2, hok]

/-- C4 witness: with a destructor that throws (type `0` of `opsDtorThrows`),
a concrete cross-type assignment still completes without propagating. -/
theorem C4_witness :
    copy_assign opsDtorThrows [0, 1]
        ⟨Content.val 5, some 0, false⟩ ⟨Content.val 7, some 1, false⟩ =
      ([Event.copyCtorEv 1, Event.dtorEv 0], false,
       ⟨Content.val 7, some 1, false⟩) :=
  C4_cross_type_dtor_exception_swallowed opsDtorThrows [0, 1]
    ⟨Content.val 5, some 0, false⟩ ⟨Content.val 7, some 1, false⟩ 0 1
    rfl rfl rfl rfl (by decide) (by decide) (by decide) (by decide) (by decide)

/-- C5: over invariant-satisfying containers, move assignment dispatches to
the stored type's move-assignment operator exactly when both sides hold a
value of the same declared non-self-pointer type (the code's fast-path test
omits `!that.self_`, but the invariant makes that redundant: equal tags with
`!this->self_` force `!that.self_`).  In every other combination the result —
events, thrown flag, and final target state — is exactly that of copy
assignment applied to a `const` view of the source, which never invokes a
move-assignment operator. -/
theorem C5_move_assign_fast_path_or_copy (ops : TypeOps)
    (types : List TypeId) (s that : tagged_union)
    (hs : invariant types s = true) (ht : invariant types that = true) :
    (∀ t, s.which = some t → that.which = some t →
       s.self = false → that.self = false →
       (move_assign ops types s that).1 = [Event.moveAsgEv t])
  ∧ ((¬ ∃ t, s.which = some t ∧ that.which = some t ∧
        s.self = false ∧ that.self = false) →
      move_assign ops types s that =
        ((copy_assign ops types s that).1, (copy_assign ops types s that).2.1,
         (copy_assign ops types s that).2.2, that))
  ∧ ((¬ ∃ t, s.which = some t ∧ that.which = some t ∧
        s.self = false ∧ that.self = false) →
      ∀ t, Event.moveAsgEv t ∉ (move_assign ops types s that).1) := by
  have hmain : (∀ t, s.which = some t → that.which = some t →
       s.self = false → that.self = false →
       (move_assign ops types s that).1 = [Event.moveAsgEv t])
    ∧ ((¬ ∃ t, s.which = some t ∧ that.which = some t ∧
        s.self = false ∧ that.self = false) →
      move_assign ops types s that =
        ((copy_assign ops types s that).1, (copy_assign ops types s that).2.1,
         (copy_assign ops types s that).2.2, that)) := by
    constructor
    · intro t h1 h2 h3 h4
      have hmem : t ∈ types := invariant_declared_mem types s t hs h1 h3
      have hfind : visit_finds types t = true := (visit_finds_iff types t).mpr hmem
      obtain ⟨sb, sw, ssf⟩ := s
      obtain ⟨tb, tw, tsf⟩ := that
      simp only at h1 h2 h3 h4
      subst h1; subst h2; subst h3; subst h4
      rcases hf : ops.moveAsgFail t (asVal tb) (asVal sb) with _ | wr <;>
        simp [move_assign, hfind, hf]
    · intro hno
      rcases h1 : s.which with _ | a
      · obtain ⟨sb, sw, ssf⟩ := s
        simp only at h1
        subst h1
        simp [move_assign]
      · rcases h2 : that.which with _ | b
        · obtain ⟨tb, tw, tsf⟩ := that
          simp only at h2
          subst h2
          obtain ⟨sb, sw, ssf⟩ := s
          rcases sw <;> simp [move_assign]
        · have hcond : ¬(a = b ∧ s.self = false) := by
            rintro ⟨hab, hsf⟩
            subst hab
            have hmem : a ∈ types := invariant_declared_mem types s a hs h1 hsf
            have htf : that.self = false := by
              rcases h3 : that.self with _ | _
              · rfl
              · exact absurd hmem (invariant_selfflag_not_mem types that a ht h2 h3)
            exact hno ⟨a, h1, h2, hsf, htf⟩
          obtain ⟨sb, sw, ssf⟩ := s
          obtain ⟨tb, tw, tsf⟩ := that
          simp only at h1 h2
          subst h1
          subst h2
          simp only at hcond
          simp [move_assign, hcond]
  refine ⟨hmain.1, hmain.2, ?_⟩
  intro hno t
  rw [hmain.2 hno]
  exact copy_assign_no_move_events ops types s that t

/-- C5 witness: a concrete same-declared-type pair takes the fast path, and a
concrete mismatched pair produces exactly the copy-assignment result. -/
theorem C5_witness :
    (move_assign opsFailNew [0, 1]
        ⟨Content.val 5, some 0, false⟩ ⟨Content.val 7, some 0, false⟩).1 =
      [Event.moveAsgEv 0]
  ∧ move_assign opsFailNew [0, 1]
        ⟨Content.val 5, some 0, false⟩ ⟨Content.zero, none, false⟩ =
      ((copy_assign opsFailNew [0, 1]
          ⟨Content.val 5, some 0, false⟩ ⟨Content.zero, none, false⟩).1,
       (copy_assign opsFailNew [0, 1]
          ⟨Content.val 5, some 0, false⟩ ⟨Content.zero, none, false⟩).2.1,
       (copy_assign opsFailNew [0, 1]
          ⟨Content.val 5, some 0, false⟩ ⟨Content.zero, none, false⟩).2.2,
       ⟨Content.zero, none, false⟩) := by
  constructor
  · exact (C5_move_assign_fast_path_or_copy opsFailNew [0, 1]
      ⟨Content.val 5, some 0, false⟩ ⟨Content.val 7, some 0, false⟩
      (by decide) (by decide)).1 0 rfl rfl rfl rfl
  · exact (C5_move_assign_fast_path_or_copy opsFailNew [0, 1]
      ⟨Content.val 5, some 0, false⟩ ⟨Content.zero, none, false⟩
      (by decide) (by decide)).2.1 (by simp)

/-- C6: the pointer-returning `gett` — total, hence never throwing — returns
null exactly when the container pointer is null, no value is stored, or the
stored type's identity differs from the requested one; the
reference-returning `gett` throws `boost::bad_get` exactly in the no-value or
mismatch cases and otherwise returns (a reference to) the stored value. -/
theorem C6_gett_null_and_throw_conditions (t : TypeId) :
    (∀ tu : Option tagged_union, gett_ptr t tu = none ↔
       (tu = none ∨ ∃ u, tu = some u ∧ u.stored_type ≠ some t))
  ∧ (∀ u : tagged_union,
       gett_ref t u = Except.error bad_get.mk ↔ u.stored_type ≠ some t)
  ∧ (∀ u : tagged_union,
       u.stored_type = some t → gett_ref t u = Except.ok u.what) := by
  have hptr : ∀ u : tagged_union,
      gett_ptr t (some u) = none ↔ u.stored_type ≠ some t := by
    intro u
    obtain ⟨b, w, sf⟩ := u
    rcases w with _ | w
    · simp [gett_ptr, tagged_union.stored_type]
    · by_cases hw : w = t <;>
        simp [gett_ptr, tagged_union.stored_type, tagged_union.data, hw]
  refine ⟨?_, ?_, ?_⟩
  · intro tu
    rcases tu with _ | u
    · simp [gett_ptr]
    · rw [hptr u]
      simp
  · intro u
    rcases hg : gett_ptr t (some u) with _ | c <;> simp [gett_ref, hg]
    · exact (hptr u).mp hg
    · by_contra hne
      have h0 := (hptr u).mpr hne
      rw [h0] at hg
      exact Option.noConfusion hg
  · intro u hu
    obtain ⟨b, w, sf⟩ := u
    simp only [tagged_union.stored_type] at hu
    subst hu
    simp [gett_ref, gett_ptr, tagged_union.stored_type, tagged_union.data]

/-- C6 witness: on a container storing a value of type `0`, requesting type
`0` through the reference form returns the stored value. -/
theorem C6_witness :
    gett_ref 0 ⟨Content.val 4, some 0, false⟩ = Except.ok (Content.val 4) :=
  (C6_gett_null_and_throw_conditions 0).2.2 ⟨Content.val 4, some 0, false⟩ rfl

/-- C7: constructing a container from a value `v` of a declared variant type
`t` (the `enable_if` fact `contains_v t types` holds) and reading it back by
type `t` yields the stored copy of `v`, through both the pointer and the
reference accessor; `stored_type()` reports `t` and
`storing_pointer_to_self()` reports `false`. -/
theorem C7_value_round_trip (ops : TypeOps) (types : List TypeId)
    (t : TypeId) (v : Val) (ev : List Event) (u : tagged_union)
    (hdecl : contains_v t types = true)
    (hmk : tu_from_value ops t v = (ev, Except.ok u)) :
    gett_ptr t (some u) = some (Content.val v)
  ∧ gett_ref t u = Except.ok (Content.val v)
  ∧ u.stored_type = some t
  ∧ u.storing_ptr_to_self = false := by
  rcases hf : ops.copyCtorFail t v with _ | c <;>
    simp [tu_from_value, hf] at hmk
  obtain ⟨-, h2⟩ := hmk
  subst h2
  simp [gett_ptr, gett_ref, tagged_union.stored_type, tagged_union.data,
        tagged_union.storing_ptr_to_self]

/-- C7 witness: a concrete round trip of the value `5` of type `0` over
declared types `[0, 1]`. -/
theorem C7_witness :
    gett_ref 0 ⟨Content.val 5, some 0, false⟩ = Except.ok (Content.val 5)
  ∧ tagged_union.stored_type ⟨Content.val 5, some 0, false⟩ = some 0 := by
  have h := C7_value_round_trip opsFailNew [0, 1] 0 5 [Event.copyCtorEv 0]
    ⟨Content.val 5, some 0, false⟩ (by decide) rfl
  exact ⟨h.2.1, h.2.2.1⟩

/-- C8: constructing a container from a pointer-to-self (stored pointer value
`p`, pointer type identity `pt`, which — since the container type cannot be
named inside its own parameter list — is not among the declared types) and
reading back by the pointer type yields the stored pointer equal to `p`;
introspection reports the self-flag on and an active type that is none of the
declared variant types. -/
theorem C8_self_pointer_round_trip (types : List TypeId) (pt : TypeId)
    (p : Ptr) (h : pt ∉ types) :
    gett_ptr pt (some (tu_from_self_ptr pt p)) = some (Content.ptr p)
  ∧ (tu_from_self_ptr pt p).storing_ptr_to_self = true
  ∧ (tu_from_self_ptr pt p).stored_type = some pt
  ∧ ∀ d ∈ types, (tu_from_self_ptr pt p).stored_type ≠ some d := by
  refine ⟨?_, rfl, rfl, ?_⟩
  · simp [gett_ptr, tu_from_self_ptr, tagged_union.stored_type,
          tagged_union.data]
  · intro d hd he
    simp only [tu_from_self_ptr, tagged_union.stored_type,
               Option.some.injEq] at he
    exact h (he ▸ hd)

/-- C8 witness: a concrete self-pointer round trip with pointer type identity
`9` (outside the declared list `[0, 1]`) and pointer value `3`. -/
theorem C8_witness :
    gett_ptr 9 (some (tu_from_self_ptr 9 3)) = some (Content.ptr 3)
  ∧ (tu_from_self_ptr 9 3).storing_ptr_to_self = true :=
  ⟨(C8_self_pointer_round_trip [0, 1] 9 3 (by decide)).1,
   (C8_self_pointer_round_trip [0, 1] 9 3 (by decide)).2.1⟩

theorem type_at_v_none_iff : ∀ (i : Nat) (types : List TypeId),
    type_at_v i types = none ↔ types.length ≤ i
  | i, [] => by simp [type_at_v]
  | 0, h :: tl => by simp [type_at_v]
  | Nat.succ i, h :: tl => by
    simp [type_at_v, type_at_v_none_iff i tl, Nat.succ_le_succ_iff]

theorem su_variant_element_none_iff : ∀ (i : Nat) (types : List TypeId),
    su_variant_element i types = none ↔ types.length ≤ i
  | i, [] => by cases i <;> simp [su_variant_element]
  | 0, h :: tl => by simp [su_variant_element]
  | Nat.succ i, h :: tl => by
    simp [su_variant_element, su_variant_element_none_iff i tl,
          Nat.succ_le_succ_iff]

theorem su_gett_defined_iff (t : TypeId) : ∀ (types : List TypeId),
    su_gett_defined t types = true ↔ t ∈ types
  | [] => by simp [su_gett_defined]
  | [h] => by by_cases e : t = h <;> simp [su_gett_defined, e]
  | h :: m :: tl => by
    by_cases e : t = h
    · simp [su_gett_defined, e]
    · simp [su_gett_defined, e, su_gett_defined_iff t (m :: tl)]

/-- C9 counterexample: for `tagged_union` the by-type accessors carry no
compile-time constraint that the requested type is declared: over the
declared list `[0, 1]`, requesting the undeclared type `2` on a live
container is accepted and produces the runtime `boost::bad_get` error — it
does reach running code as a runtime error, contrary to the claim. -/
theorem C9_counterexample :
    contains_v 2 [0, 1] = false
  ∧ gett_ref 2 ⟨Content.val 5, some 0, false⟩ = Except.error bad_get.mk :=
  ⟨rfl, rfl⟩

/-- C9 (amended): out-of-range index access is rejected at build time for
both container kinds (the `type_at_v` and `variant_element` lookups are
undefined exactly for indices at or beyond the declared count), and
wrong-type-by-name access is rejected at build time for `super_union` (its
`gett` overload chain resolves exactly for declared types); for
`tagged_union`, by-type access with a type that is not the active one —
including any type outside the declared list — compiles and yields the
runtime null/`bad_get` result instead. -/
theorem C9_amended_build_time_rejection :
    (∀ (i : Nat) (types : List TypeId),
       type_at_v i types = none ↔ types.length ≤ i)
  ∧ (∀ (i : Nat) (types : List TypeId),
       su_variant_element i types = none ↔ types.length ≤ i)
  ∧ (∀ (t : TypeId) (types : List TypeId),
       su_gett_defined t types = true ↔ t ∈ types)
  ∧ (∀ (t : TypeId) (u : tagged_union), u.stored_type ≠ some t →
       gett_ref t u = Except.error bad_get.mk) := by
  refine ⟨type_at_v_none_iff, su_variant_element_none_iff,
          fun t types => su_gett_defined_iff t types, ?_⟩
  intro t u hne
  obtain ⟨b, w, sf⟩ := u
  simp only [tagged_union.stored_type] at hne
  rcases w with _ | w
  · simp [gett_ref, gett_ptr, tagged_union.stored_type]
  · have hwt : ¬w = t := fun e => hne (by rw [e])
    simp [gett_ref, gett_ptr, tagged_union.stored_type, hwt]

/-- C9 amended witness: index `2` over two declared types is a build-time
failure, and a runtime `bad_get` for a mismatched type on an empty
`tagged_union`. -/
theorem C9_amended_witness :
    type_at_v 2 [0, 1] = none
  ∧ gett_ref 3 ⟨Content.zero, none, false⟩ = Except.error bad_get.mk :=
  ⟨(C9_amended_build_time_rejection.1 2 [0, 1]).mpr (by decide),
   C9_amended_build_time_rejection.2.2.2 3 ⟨Content.zero, none, false⟩
     (by decide)⟩

/-- C10: move construction and move assignment leave the source container's
tag and self-flag unchanged — the source never becomes empty and still
reports its originally-held type — and when the source is empty or holds a
self-pointer its buffer content is unchanged as well (only a declared
value's buffer can be mutated, by the variant type's own move operation).
The containers are assumed to satisfy the consistency invariant. -/
theorem C10_move_source_frame (ops : TypeOps) (types : List TypeId)
    (s that : tagged_union)
    (hs : invariant types s = true) (ht : invariant types that = true) :
    ((tu_move_ctor ops types that).2.2.which = that.which
   ∧ (tu_move_ctor ops types that).2.2.self = that.self
   ∧ ((that.which = none ∨ that.self = true) →
        (tu_move_ctor ops types that).2.2.what = that.what))
  ∧ ((move_assign ops types s that).2.2.2.which = that.which
   ∧ (move_assign ops types s that).2.2.2.self = that.self
   ∧ ((that.which = none ∨ that.self = true) →
        (move_assign ops types s that).2.2.2.what = that.what)) := by
  constructor
  · obtain ⟨tb, tw, tsf⟩ := that
    rcases tw with _ | t <;> cases tsf <;>
      simp [tu_move_ctor, move_ctor_core] <;>
      (repeat' split) <;> simp_all
  · rcases h1 : s.which with _ | a
    · obtain ⟨sb, sw, ssf⟩ := s
      simp only at h1
      subst h1
      simp [move_assign]
    · rcases h2 : that.which with _ | b
      · obtain ⟨sb, sw, ssf⟩ := s
        obtain ⟨tb, tw, tsf⟩ := that
        simp only at h1 h2
        subst h1; subst h2
        simp [move_assign]
      · by_cases hcond : a = b ∧ s.self = false
        · obtain ⟨hab, hsf⟩ := hcond
          subst hab
          have hmem : a ∈ types := invariant_declared_mem types s a hs h1 hsf
          have htf : that.self = false := by
            rcases h3 : that.self with _ | _
            · rfl
            · exact absurd hmem
                (invariant_selfflag_not_mem types that a ht h2 h3)
          obtain ⟨sb, sw, ssf⟩ := s
          obtain ⟨tb, tw, tsf⟩ := that
          simp only at h1 h2 hsf htf
          subst h1; subst h2; subst hsf; subst htf
          simp only [move_assign] <;> (repeat' split) <;> simp_all
        · obtain ⟨sb, sw, ssf⟩ := s
          obtain ⟨tb, tw, tsf⟩ := that
          simp only at h1 h2
          subst h1; subst h2
          simp only at hcond
          simp [move_assign, hcond]

/-- C10 witness: moving from a container that holds a self-pointer leaves
the source bitwise intact. -/
theorem C10_witness :
    (tu_move_ctor opsFailNew [0, 1] ⟨Content.ptr 3, some 9, true⟩).2.2.which =
      some 9
  ∧ (tu_move_ctor opsFailNew [0, 1] ⟨Content.ptr 3, some 9, true⟩).2.2.what =
      Content.ptr 3 := by
  have h := C10_move_source_frame opsFailNew [0, 1] tu_default
    ⟨Content.ptr 3, some 9, true⟩ (by decide) (by decide)
  exact ⟨h.1.1, h.1.2.2 (Or.inr rfl)⟩

end Unionize
